import Mathlib

/-!
Shallow embedding of the identity-synchronization and tenant-authorization
subsystem of the hrms-backend repository: the Prisma data rows the code
touches, the JWT credential codec (src/utils/Jwt.util.ts), the tenant
middleware (src/middlewares/tenant.middleware.ts), the provisioning engine
(src/services/auth.service.ts), the webhook controller dispatch
(src/controllers/webhook.controller.ts) and the environment loading
(src/config/env.ts). Database access is modelled by explicit state passing
over a `Db` record of rows; JavaScript truthiness of strings (empty string
is falsy) is modelled explicitly where the code relies on it.
-/

set_option maxHeartbeats 1000000

deriving instance DecidableEq for Except

namespace HRMS

/-- UserStatus enum of the Prisma schema. -/
inductive UserStatus where
  | ACTIVE
  | INACTIVE
  | SUSPENDED
  | TERMINATED
deriving DecidableEq

/-- Organization row: the tenant root, with its active flag. -/
structure Organization where
  id : String
  name : String
  displayName : String
  isActive : Bool
deriving DecidableEq

/-- Role row: per-organization permission bundle; (organizationId, name) is unique. -/
structure Role where
  id : Nat
  organizationId : String
  name : String
  displayName : String
  description : String
  level : Nat
  isSystem : Bool
  isActive : Bool
deriving DecidableEq

/-- User row, restricted to the fields the subsystem reads or writes.
clerkId, employeeCode and email are globally unique in the schema. -/
structure User where
  id : Nat
  clerkId : String
  organizationId : String
  roleId : Nat
  employeeCode : String
  email : String
  firstName : String
  lastName : String
  phone : Option String
  dateOfJoining : Nat
  status : UserStatus
  isEmailVerified : Bool
  isPhoneVerified : Bool
  dateOfLeaving : Option Nat
  updatedAt : Nat
deriving DecidableEq

/-- The database state: the three tables the subsystem touches, plus a
counter standing for the id generator of the persistence engine. -/
structure Db where
  organizations : List Organization
  roles : List Role
  users : List User
  nextId : Nat
deriving DecidableEq

/-! ## Credential codec (src/utils/Jwt.util.ts) -/

/-- The claim set `generateToken` receives: `Omit<JWTPayload, 'exp'>`. -/
structure TokenClaims where
  id : String
  clerkUid : String
  organizationId : String
  email : String
  firstName : String
  lastName : String
  role : String
deriving DecidableEq

/-- The full JWT payload, with the stamped absolute expiry (seconds). -/
structure JWTPayload where
  id : String
  clerkUid : String
  organizationId : String
  email : String
  firstName : String
  lastName : String
  role : String
  exp : Nat
deriving DecidableEq

/-- The payload produced by spreading a claim set and adding `exp`. -/
def payloadOf (c : TokenClaims) (e : Nat) : JWTPayload :=
  { id := c.id, clerkUid := c.clerkUid, organizationId := c.organizationId,
    email := c.email, firstName := c.firstName, lastName := c.lastName,
    role := c.role, exp := e }

/-- An HS256 signature over the payload, idealized as the (key, message)
pair: two signatures agree exactly when key and signed payload agree. -/
structure Hmac where
  key : String
  message : JWTPayload
deriving DecidableEq

/-- A signed token as `jwt.sign` emits it: payload plus signature. -/
structure SignedToken where
  payload : JWTPayload
  sig : Hmac
deriving DecidableEq

/-- 60 * 60 * 24 * 7 seconds: the fixed 7-day expiry horizon. -/
def sevenDays : Nat := 60 * 60 * 24 * 7

/-- generateToken: stamps `exp = now + 7 days` onto the claims and signs
with the symmetric secret (HS256). `now` is Date.now()/1000 in seconds. -/
def generateToken (secret : String) (now : Nat) (c : TokenClaims) : SignedToken :=
  let tokenPayload := payloadOf c (now + sevenDays)
  { payload := tokenPayload, sig := { key := secret, message := tokenPayload } }

/-- The failures of token verification, as thrown by the code. -/
inductive TokenError where
  | invalidSignature
  | expired
deriving DecidableEq

/-- verifyToken: `jwt.verify` checks the signature and rejects a token whose
expiry is not in the future (TokenExpiredError when now is at or past exp);
the code then re-checks `decoded.exp < currentTime` itself. Both checks are
kept in sequence as the composed code performs them. -/
def verifyToken (secret : String) (now : Nat) (t : SignedToken) :
    Except TokenError JWTPayload :=
  if t.sig = { key := secret, message := t.payload } then
    if t.payload.exp ≤ now then Except.error TokenError.expired
    else if t.payload.exp < now then Except.error TokenError.expired
    else Except.ok t.payload
  else Except.error TokenError.invalidSignature

/-! ## Tenant middleware (src/middlewares/tenant.middleware.ts) -/

/-- JavaScript `a || b` on strings: the empty string is falsy. -/
def jsOr (a b : String) : String := if a = "" then b else a

/-- JavaScript truthiness of an optional string value. -/
def jsTruthy : Option String → Bool
  | none => false
  | some s => s != ""

/-- Removes the first occurrence of `pat`, as the JavaScript
`String.prototype.replace(pat, "")` with a string pattern does; a string
without the pattern is returned unchanged. -/
def removeFirst (pat : List Char) : List Char → List Char
  | [] => []
  | c :: cs =>
    if pat.isPrefixOf (c :: cs) then (c :: cs).drop pat.length
    else c :: removeFirst pat cs

/-- `req.headers.authorization?.replace('Bearer ', '')`: an absent header
yields the empty (falsy) token. -/
def extractBearerToken (authHeader : Option String) : String :=
  match authHeader with
  | none => ""
  | some h => String.mk (removeFirst "Bearer ".toList h.toList)

/-- The identity and organization context the middleware attaches to the
request (`req.user`). -/
structure AuthUser where
  id : String
  clerkUid : String
  organizationId : String
  email : String
  firstName : String
  lastName : String
  role : String
deriving DecidableEq

/-- The `req.user` object built from the decoded payload. -/
def authUserOf (p : JWTPayload) : AuthUser :=
  { id := p.id, clerkUid := p.clerkUid, organizationId := p.organizationId,
    email := p.email, firstName := p.firstName, lastName := p.lastName,
    role := p.role }

/-- What the middleware does with a request: an error response with its
HTTP status, or the call to next() with the attached context. -/
inductive MwOutcome where
  | reject401 (message : String)
  | reject403 (message : String)
  | admitted (ctx : AuthUser)
deriving DecidableEq

/-- validateTenantAccess: extract the bearer token (absence is 401), verify
it (any verification throw is caught as 401), reject 403 on a falsy
organizationId in the claims, look the organization up and reject 403 when
it is missing or inactive, else attach `req.user` and call next(). The
verifier is the collaborator imported from Jwt.util, passed as a function. -/
def validateTenantAccess (verify : String → Except TokenError JWTPayload)
    (authHeader : Option String) (db : Db) : MwOutcome :=
  let token := extractBearerToken authHeader
  if token = "" then MwOutcome.reject401 "Authentication token required"
  else
    match verify token with
    | Except.error _ => MwOutcome.reject401 "Invalid or expired token"
    | Except.ok decoded =>
      if decoded.organizationId = "" then
        MwOutcome.reject403 "Invalid token: missing organization context"
      else
        match db.organizations.find? (fun o => o.id == decoded.organizationId) with
        | none => MwOutcome.reject403 "Organization is inactive or not found"
        | some organization =>
          if organization.isActive then MwOutcome.admitted (authUserOf decoded)
          else MwOutcome.reject403 "Organization is inactive or not found"

/-- Outcome of the per-route resource guard, which attaches nothing. -/
inductive GuardOutcome where
  | reject401 (message : String)
  | reject403 (message : String)
  | nextStep
deriving DecidableEq

/-- ensureResourceBelongsToTenant: requires `req.user`; reads the resource
organization id as `req.params[f] || req.query[f] || (req.body && req.body[f])`
(first truthy value wins, empty strings are falsy) and rejects 403 when that
value exists and differs from the caller's organization. -/
def ensureResourceBelongsToTenant (user : Option AuthUser)
    (pathParam queryParam bodyParam : Option String) : GuardOutcome :=
  match user with
  | none => GuardOutcome.reject401 "Authentication required"
  | some u =>
    let resourceOrgId :=
      if jsTruthy pathParam then pathParam
      else if jsTruthy queryParam then queryParam
      else if jsTruthy bodyParam then bodyParam
      else none
    match resourceOrgId with
    | some rid =>
      if rid != u.organizationId then
        GuardOutcome.reject403 "Access denied: resource belongs to different organization"
      else GuardOutcome.nextStep
    | none => GuardOutcome.nextStep

/-- The first truthy value among the three request locations, written
independently of the middleware as a priority search over a list. -/
def firstTruthyOrgId (locs : List (Option String)) : Option String :=
  locs.findSome? (fun o =>
    match o with
    | some s => if s = "" then none else some s
    | none => none)

/-! ## Provisioning engine (src/services/auth.service.ts) -/

/-- One entry of the Clerk user's emailAddresses array. -/
structure EmailAddressEntry where
  id : String
  emailAddress : String
deriving DecidableEq

/-- One entry of the Clerk user's phoneNumbers array. -/
structure PhoneNumberEntry where
  phoneNumber : String
deriving DecidableEq

/-- The Clerk publicMetadata bag, reduced to the one field read. -/
structure PublicMetadata where
  organizationId : Option String
deriving DecidableEq

/-- The external identity record delivered by a Clerk webhook event,
reduced to the fields the service extracts. -/
structure ClerkUser where
  id : String
  emailAddresses : List EmailAddressEntry
  primaryEmailAddressId : Option String
  phoneNumbers : List PhoneNumberEntry
  firstName : Option String
  lastName : Option String
  publicMetadata : Option PublicMetadata
deriving DecidableEq

/-- What extractClerkUserData returns. -/
structure ExtractedUserData where
  email : String
  firstName : String
  lastName : String
  phone : String
deriving DecidableEq

/-- JavaScript `o || d` for an optional string field. -/
def jsOrElse (o : Option String) (d : String) : String :=
  match o with
  | some s => jsOr s d
  | none => d

/-- extractClerkUserData: prefer the designated primary email address, else
the first one, else the empty string; default a missing first name to
"User"; take the first phone number if any. -/
def extractClerkUserData (cu : ClerkUser) : ExtractedUserData :=
  let primary : Option EmailAddressEntry :=
    match cu.primaryEmailAddressId with
    | none => none
    | some pid => cu.emailAddresses.find? (fun e => e.id == pid)
  let email :=
    jsOr (match primary with | some e => e.emailAddress | none => "")
      (match cu.emailAddresses.head? with | some e => e.emailAddress | none => "")
  { email := email,
    firstName := jsOrElse cu.firstName "User",
    lastName := jsOrElse cu.lastName "",
    phone := match cu.phoneNumbers.head? with | some p => p.phoneNumber | none => "" }

/-- extractOrganizationIdFromClerk: `publicMetadata.organizationId || null`;
both an absent and an empty-string identifier are falsy. -/
def extractOrganizationIdFromClerk (cu : ClerkUser) : Option String :=
  match cu.publicMetadata with
  | none => none
  | some m =>
    match m.organizationId with
    | none => none
    | some s => if s = "" then none else some s

/-- generateUniqueEmployeeCode: each attempt builds a candidate code
`EMP + last 6 timestamp digits + 3 random digits`; the source of those
digits (Date.now and Math.random) is modelled as the oracle stream `cands`.
The source retries by unbounded recursion on a collision; `fuel` makes the
function total in Lean, with `none` meaning the recursion has not returned
after `fuel` candidates. There is no retry ceiling and no typed failure in
the source. -/
def generateUniqueEmployeeCode (cands : Nat → String) (db : Db) :
    Nat → Nat → Option String
  | _, 0 => none
  | i, fuel + 1 =>
    let code := cands i
    match db.users.find? (fun u => u.employeeCode == code) with
    | some _ => generateUniqueEmployeeCode cands db (i + 1) fuel
    | none => some code

/-- The typed outcomes of syncClerkUserToDatabase: the thrown errors,
including a database uniqueness violation the code does not catch. -/
inductive SyncError where
  | missingEmail
  | missingTenantContext
  | unknownOrInactiveOrganization
  | uniqueViolation
deriving DecidableEq

/-- True when a role row with this (organizationId, name) pair exists, the
unique constraint `role.create` can violate. -/
def roleUniqueViolated (db : Db) (orgId nm : String) : Bool :=
  db.roles.any (fun r => r.organizationId == orgId && r.name == nm)

/-- The default employee role row `role.create` inserts. -/
def defaultEmployeeRole (orgId : String) (rid : Nat) : Role :=
  { id := rid, organizationId := orgId, name := "employee",
    displayName := "Employee", description := "Default employee role",
    level := 10, isSystem := true, isActive := true }

/-- True when a user row collides with one of the unique columns
(clerkId, employeeCode, email) `user.create` writes. -/
def userUniqueViolated (db : Db) (clerkId code email : String) : Bool :=
  db.users.any (fun u =>
    u.clerkId == clerkId || u.employeeCode == code || u.email == email)

/-- The user row `user.create` inserts: status ACTIVE, join date now,
email verified, phone verified exactly when a phone was extracted,
`phone: phone || null`. -/
def newUserRow (uid : Nat) (cu : ClerkUser) (orgId : String) (roleId : Nat)
    (code : String) (d : ExtractedUserData) (now : Nat) : User :=
  { id := uid, clerkId := cu.id, organizationId := orgId, roleId := roleId,
    employeeCode := code, email := d.email, firstName := d.firstName,
    lastName := d.lastName,
    phone := if d.phone = "" then none else some d.phone,
    dateOfJoining := now, status := UserStatus.ACTIVE,
    isEmailVerified := true, isPhoneVerified := d.phone != "",
    dateOfLeaving := none, updatedAt := now }

/-- The `prisma.user.create` step of the sync: a uniqueness violation is
thrown and, since the service catches and rethrows, propagated. -/
def createUserStep (cu : ClerkUser) (orgId : String) (roleId : Nat)
    (code : String) (d : ExtractedUserData) (now : Nat) (db : Db) :
    Option (Except SyncError User × Db) :=
  if userUniqueViolated db cu.id code d.email then
    some (Except.error SyncError.uniqueViolation, db)
  else
    let u := newUserRow db.nextId cu orgId roleId code d now
    some (Except.ok u, { db with users := u :: db.users, nextId := db.nextId + 1 })

/-- syncClerkUserToDatabase, the user.created handler: return the existing
row unchanged when the subject is known; else extract the profile fields,
fail on a missing email, fail on a missing organization id in the metadata,
fail when the organization is unknown or inactive, generate an employee
code, find the active default employee role or create it (an uncaught
uniqueness violation propagates), and insert the user row. The outer
`none` means the employee-code recursion has not returned within `fuel`. -/
def syncClerkUserToDatabase (fuel : Nat) (cands : Nat → String) (now : Nat)
    (cu : ClerkUser) (db : Db) : Option (Except SyncError User × Db) :=
  match db.users.find? (fun u => u.clerkId == cu.id) with
  | some existingUser => some (Except.ok existingUser, db)
  | none =>
    let d := extractClerkUserData cu
    if d.email = "" then some (Except.error SyncError.missingEmail, db)
    else
      match extractOrganizationIdFromClerk cu with
      | none => some (Except.error SyncError.missingTenantContext, db)
      | some organizationId =>
        match db.organizations.find? (fun o => o.id == organizationId && o.isActive) with
        | none => some (Except.error SyncError.unknownOrInactiveOrganization, db)
        | some organization =>
          match generateUniqueEmployeeCode cands db 0 fuel with
          | none => none
          | some employeeCode =>
            match db.roles.find? (fun r =>
                r.organizationId == organization.id && r.name == "employee" && r.isActive) with
            | some role => createUserStep cu organization.id role.id employeeCode d now db
            | none =>
              if roleUniqueViolated db organization.id "employee" then
                some (Except.error SyncError.uniqueViolation, db)
              else
                let role := defaultEmployeeRole organization.id db.nextId
                let db1 := { db with roles := role :: db.roles, nextId := db.nextId + 1 }
                createUserStep cu organization.id role.id employeeCode d now db1

/-- getUserByClerkId: lookup by the external subject identifier. -/
def getUserByClerkId (db : Db) (clerkId : String) : Option User :=
  db.users.find? (fun u => u.clerkId == clerkId)

/-- Replaces the first element satisfying `p` by its image under `f`:
the semantics of an update through a unique where-clause. -/
def updateFirst (p : α → Bool) (f : α → α) : List α → List α
  | [] => []
  | x :: xs => if p x then f x :: xs else x :: updateFirst p f xs

/-- The data block of handleClerkUserUpdate's `user.update`: email, names,
phone (the raw extracted string, with no null fallback here), the phone
verification flag and updatedAt; nothing else. -/
def applyClerkUpdate (now : Nat) (cu : ClerkUser) (u : User) : User :=
  let d := extractClerkUserData cu
  { u with
    email := d.email, firstName := d.firstName, lastName := d.lastName,
    phone := some d.phone, isPhoneVerified := d.phone != "", updatedAt := now }

/-- Failure of a prisma update through a where-clause with no matching row. -/
inductive DbError where
  | recordNotFound
deriving DecidableEq

/-- handleClerkUserUpdate: `prisma.user.update` keyed by clerkId, writing
only the mutable profile fields. -/
def handleClerkUserUpdate (now : Nat) (cu : ClerkUser) (db : Db) :
    Except DbError (User × Db) :=
  match db.users.find? (fun u => u.clerkId == cu.id) with
  | none => Except.error DbError.recordNotFound
  | some u =>
    Except.ok (applyClerkUpdate now cu u,
      { db with
        users := updateFirst (fun x => x.clerkId == cu.id) (applyClerkUpdate now cu) db.users })

/-- The user.updated case of WebhookController.handleClerkWebhook: update
only when the user exists in the database, else skip. -/
def handleUserUpdatedEvent (now : Nat) (cu : ClerkUser) (db : Db) : Db :=
  match getUserByClerkId db cu.id with
  | none => db
  | some _ =>
    match handleClerkUserUpdate now cu db with
    | Except.ok (_, db1) => db1
    | Except.error _ => db

/-! ## Configuration loading (src/config/env.ts and src/utils/Jwt.util.ts) -/

/-- `required(name)` of env.ts: throws on an absent (or empty, hence falsy)
environment variable. The environment is a partial map of variable names. -/
def requiredVar (env : String → Option String) (name : String) :
    Except String String :=
  match env name with
  | none => Except.error ("Missing environment variable: " ++ name)
  | some v =>
    if v = "" then Except.error ("Missing environment variable: " ++ name)
    else Except.ok v

/-- The variables env.ts wraps in `required(...)`, in field order; loading
the module evaluates them all, so startup fails when one is absent.
JWT_SECRET_KEY is not among them. -/
def requiredEnvNames : List String :=
  ["DATABASE_URL", "CLERK_SECRET_KEY", "CLERK_PUBLISHABLE_KEY",
   "CLERK_WEBHOOK_SECRET", "UPSTASH_REDIS_REST_URL", "UPSTASH_REDIS_REST_TOKEN",
   "SMTP_HOST", "SMTP_USER", "SMTP_PASS", "SMTP_FROM", "AWS_REGION",
   "AWS_ACCESS_KEY_ID", "AWS_SECRET_ACCESS_KEY", "S3_BUCKET_NAME"]

/-- Evaluating the getEnv object at module load: the first missing required
variable aborts startup with its error. -/
def getEnvStartup (env : String → Option String) : Except String Unit :=
  requiredEnvNames.foldr
    (fun n acc =>
      match requiredVar env n with
      | Except.error e => Except.error e
      | Except.ok _ => acc)
    (Except.ok ())

/-- `const JWT_SECRET = process.env.JWT_SECRET_KEY || "default_secret"` of
Jwt.util.ts: the signing secret silently falls back to a built-in default. -/
def jwtSecretOf (env : String → Option String) : String :=
  match env "JWT_SECRET_KEY" with
  | none => "default_secret"
  | some s => if s = "" then "default_secret" else s

/-! ## Concrete fixtures used to evaluate the model on closed inputs -/

/-- A sample claim set for the credential codec. -/
def claims0 : TokenClaims :=
  { id := "u1", clerkUid := "ck1", organizationId := "org1",
    email := "a@x.com", firstName := "Ann", lastName := "Lee",
    role := "employee" }

/-- An authenticated caller of organization orgA. -/
def userOrgA : AuthUser :=
  { id := "u1", clerkUid := "ck1", organizationId := "orgA",
    email := "a@x.com", firstName := "Ann", lastName := "Lee",
    role := "employee" }

/-- An existing, active organization. -/
def orgOne : Organization :=
  { id := "org1", name := "Org One", displayName := "Org One", isActive := true }

/-- An employee role row for org1 that is present but inactive. -/
def inactiveEmployeeRole : Role :=
  { id := 0, organizationId := "org1", name := "employee",
    displayName := "Employee", description := "Default employee role",
    level := 10, isSystem := true, isActive := false }

/-- A candidate-code oracle that keeps producing the same code, as Date.now
and Math.random may within one millisecond. -/
def constCands : Nat → String := fun _ => "EMP123456001"

/-- A well-formed user.created subject: primary email, names, org1 metadata. -/
def clerkUserExt42 : ClerkUser :=
  { id := "ext_42",
    emailAddresses := [{ id := "em1", emailAddress := "a@x.com" }],
    primaryEmailAddressId := some "em1", phoneNumbers := [],
    firstName := some "Ann", lastName := some "Lee",
    publicMetadata := some { organizationId := some "org1" } }

/-- A subject with an email but no organization id in the metadata bag. -/
def clerkUserNoOrg : ClerkUser :=
  { id := "ext_noorg",
    emailAddresses := [{ id := "em1", emailAddress := "b@x.com" }],
    primaryEmailAddressId := some "em1", phoneNumbers := [],
    firstName := none, lastName := none, publicMetadata := none }

/-- A subject with no resolvable email address at all. -/
def clerkUserNoEmail : ClerkUser :=
  { id := "ext_9", emailAddresses := [], primaryEmailAddressId := none,
    phoneNumbers := [], firstName := some "Nia", lastName := none,
    publicMetadata := some { organizationId := some "org1" } }

/-- A provisioned user row for subject ext_9 with a non-empty email. -/
def storedUser9 : User :=
  { id := 9, clerkId := "ext_9", organizationId := "org1", roleId := 0,
    employeeCode := "EMP000000009", email := "old@x.com", firstName := "Old",
    lastName := "Name", phone := none, dateOfJoining := 0,
    status := UserStatus.ACTIVE, isEmailVerified := true,
    isPhoneVerified := false, dateOfLeaving := none, updatedAt := 0 }

/-- Database holding only storedUser9. -/
def c10Db : Db :=
  { organizations := [orgOne], roles := [], users := [storedUser9], nextId := 10 }

/-- The empty database. -/
def emptyDb : Db :=
  { organizations := [], roles := [], users := [], nextId := 0 }

/-- Fresh database with only org1, before the first user.created event. -/
def c3Db0 : Db :=
  { organizations := [orgOne], roles := [], users := [], nextId := 0 }

/-- The default employee role the first sync creates in c3Db0. -/
def c3Role : Role := defaultEmployeeRole "org1" 0

/-- The user row the first sync of ext_42 creates in c3Db0. -/
def c3User : User :=
  newUserRow 1 clerkUserExt42 "org1" 0 "EMP123456001"
    (extractClerkUserData clerkUserExt42) 0

/-- The database state after the first sync of ext_42 into c3Db0. -/
def c3Db1 : Db :=
  { organizations := [orgOne], roles := [c3Role], users := [c3User], nextId := 2 }

/-- Database where org1 is active but its employee role exists inactive. -/
def c7Db : Db :=
  { organizations := [orgOne], roles := [inactiveEmployeeRole], users := [], nextId := 1 }

/-- An environment with every variable of env.ts required list set, and
JWT_SECRET_KEY unset. -/
def envAllButJwt : String → Option String :=
  fun n => if requiredEnvNames.contains n then some "configured" else none

/-- Default user value for list indexing via getD. -/
def defaultUser : User :=
  { id := 0, clerkId := "", organizationId := "", roleId := 0,
    employeeCode := "", email := "", firstName := "", lastName := "",
    phone := none, dateOfJoining := 0, status := UserStatus.ACTIVE,
    isEmailVerified := false, isPhoneVerified := false, dateOfLeaving := none,
    updatedAt := 0 }

/-! ## Theorems -/

/-- Claim C5: the credential codec round-trips. A token issued at t0 and
verified strictly within the 7-day horizon (so in particular at 7 days
minus one second) yields exactly the input claims plus the stamped expiry,
and verification 7 days and one second after issuance yields Expired. -/
theorem claim_C5_roundtrip (secret : String) (t0 now : Nat) (c : TokenClaims)
    (hIssued : t0 ≤ now) (hWithin : now < t0 + sevenDays) :
    verifyToken secret now (generateToken secret t0 c) =
      Except.ok (payloadOf c (t0 + sevenDays))
    ∧ verifyToken secret (t0 + sevenDays + 1) (generateToken secret t0 c) =
      Except.error TokenError.expired := by
  have hexp : (payloadOf c (t0 + sevenDays)).exp = t0 + sevenDays := rfl
  constructor
  · unfold generateToken verifyToken
    rw [if_pos rfl, if_neg (by rw [hexp]; omega), if_neg (by rw [hexp]; omega)]
  · unfold generateToken verifyToken
    rw [if_pos rfl, if_pos (by rw [hexp]; omega)]

/-- Witness for C5 at the boundary instants: issuance at 0, acceptance at
604799 seconds (7 days minus one second), rejection at 604801 seconds. -/
theorem claim_C5_witness :
    verifyToken "s" 604799 (generateToken "s" 0 claims0) =
      Except.ok (payloadOf claims0 604800)
    ∧ verifyToken "s" 604801 (generateToken "s" 0 claims0) =
      Except.error TokenError.expired := by
  have h := claim_C5_roundtrip "s" 0 604799 claims0 (by omega)
    (by norm_num [sevenDays])
  simpa [sevenDays] using h

/-- Claim C7 is violated by the code: with organization org1 active and an
inactive employee role row already present, the role lookup (filtered on
isActive) misses it, role creation violates the (organizationId, name)
uniqueness constraint, and the violation propagates to the caller as an
error instead of being caught and resolved by a re-fetch. -/
theorem claim_C7_collision_propagates :
    syncClerkUserToDatabase 1 constCands 0 clerkUserExt42 c7Db =
      some (Except.error SyncError.uniqueViolation, c7Db)
    ∧ c7Db.roles = [inactiveEmployeeRole] := by decide

/-- Claim C9 is violated by the code: with every variable of the env.ts
required list configured and JWT_SECRET_KEY unset, startup succeeds, the
signing secret silently becomes the built-in "default_secret", and token
issuance and verification proceed with it; only an unset required variable
such as DATABASE_URL aborts startup. -/
theorem claim_C9_default_secret :
    getEnvStartup envAllButJwt = Except.ok ()
    ∧ envAllButJwt "JWT_SECRET_KEY" = none
    ∧ jwtSecretOf envAllButJwt = "default_secret"
    ∧ verifyToken (jwtSecretOf envAllButJwt) 0
        (generateToken (jwtSecretOf envAllButJwt) 0 claims0) =
      Except.ok (payloadOf claims0 sevenDays)
    ∧ getEnvStartup (fun _ => none) =
      Except.error "Missing environment variable: DATABASE_URL" := by decide

/-- Claim C6 is violated by the code: when every candidate the oracle
produces is already taken (c3Db1 holds the code constCands keeps emitting),
the retry recursion returns nothing for every retry budget: there is no
retry ceiling and no CodeGenerationExhausted outcome in its type, which
offers only a code or further recursion. -/
theorem claim_C6_unbounded_retry :
    ∀ fuel i, generateUniqueEmployeeCode constCands c3Db1 i fuel = none := by
  intro fuel
  induction fuel with
  | zero => intro i; rfl
  | succ n ih =>
    intro i
    unfold generateUniqueEmployeeCode
    dsimp only [constCands]
    have hfind : c3Db1.users.find? (fun u => u.employeeCode == "EMP123456001") =
        some c3User := by decide
    rw [hfind]
    exact ih (i + 1)

/-- Claim C2 as stated is violated: the caller belongs to orgA, the path
parameter carries orgA, and the body carries the different identifier orgB;
an explicit resource organization identifier different from the caller's is
supplied in the body, yet the request is admitted, because the middleware
reads only the first truthy value in the order params, query, body. -/
theorem claim_C2_counterexample :
    ensureResourceBelongsToTenant (some userOrgA) (some "orgA") none (some "orgB") =
      GuardOutcome.nextStep
    ∧ userOrgA.organizationId = "orgA"
    ∧ ("orgB" : String) ≠ "orgA" := by decide

/-- The nested truthiness fallback of the middleware equals the priority
search over the three locations. -/
theorem firstTruthy_as_fallback (p q b : Option String) :
    firstTruthyOrgId [p, q, b] =
      (if jsTruthy p then p
       else if jsTruthy q then q
       else if jsTruthy b then b
       else none) := by
  rcases p with _ | sp <;> rcases q with _ | sq <;> rcases b with _ | sb <;>
    simp [firstTruthyOrgId, jsTruthy, List.findSome?] <;>
      split_ifs <;> simp_all

/-- Claim C2 amended: the guard examines only the first truthy resource
organization identifier in priority order path params, then query, then
body (empty strings count as absent); it rejects with 403 exactly when that
first identifier differs from the authenticated organization, and admits
when it equals it or when no truthy identifier is supplied; identifiers in
lower-priority locations are ignored. -/
theorem claim_C2_first_match_guard (u : AuthUser) (p q b : Option String) :
    (ensureResourceBelongsToTenant (some u) p q b =
        GuardOutcome.reject403 "Access denied: resource belongs to different organization"
      ↔ ∃ rid, firstTruthyOrgId [p, q, b] = some rid ∧ rid ≠ u.organizationId)
    ∧ (∀ rid, firstTruthyOrgId [p, q, b] = some rid → rid = u.organizationId →
        ensureResourceBelongsToTenant (some u) p q b = GuardOutcome.nextStep)
    ∧ (firstTruthyOrgId [p, q, b] = none →
        ensureResourceBelongsToTenant (some u) p q b = GuardOutcome.nextStep) := by
  have hform := firstTruthy_as_fallback p q b
  unfold ensureResourceBelongsToTenant
  rw [← hform]
  cases hf : firstTruthyOrgId [p, q, b] with
  | none => simp
  | some rid =>
    by_cases hr : rid = u.organizationId
    · subst hr
      simp
    · simp [bne_iff_ne, hr]

/-- Claim C4: for a user.created event of a not-yet-provisioned subject
whose email resolves (the extraction steps that precede the tenant checks),
a missing organization identifier in the metadata bag yields
missingTenantContext with the database unchanged (no User is created), a
present identifier whose organization lookup (filtered on isActive) finds
nothing yields unknownOrInactiveOrganization with the database unchanged,
and the two failures are distinct values. -/
theorem claim_C4_tenant_rejections
    (fuel : Nat) (cands : Nat → String) (now : Nat) (cu : ClerkUser) (db : Db)
    (hFresh : db.users.find? (fun x => x.clerkId == cu.id) = none)
    (hEmail : (extractClerkUserData cu).email ≠ "") :
    (extractOrganizationIdFromClerk cu = none →
      syncClerkUserToDatabase fuel cands now cu db =
        some (Except.error SyncError.missingTenantContext, db))
    ∧ (∀ oid, extractOrganizationIdFromClerk cu = some oid →
        db.organizations.find? (fun o => o.id == oid && o.isActive) = none →
        syncClerkUserToDatabase fuel cands now cu db =
          some (Except.error SyncError.unknownOrInactiveOrganization, db))
    ∧ SyncError.missingTenantContext ≠ SyncError.unknownOrInactiveOrganization := by
  refine ⟨?_, ?_, by simp⟩
  · intro hOrg
    unfold syncClerkUserToDatabase
    rw [hFresh]
    dsimp only
    rw [if_neg hEmail, hOrg]
  · intro oid hOid hFind
    unfold syncClerkUserToDatabase
    rw [hFresh]
    dsimp only
    rw [if_neg hEmail, hOid]
    dsimp only
    rw [hFind]

/-- Witness for C4: the subject ext_noorg has a resolvable email and no
organization identifier in its metadata; against the empty database the
sync fails with missingTenantContext and creates nothing. -/
theorem claim_C4_witness :
    (extractOrganizationIdFromClerk clerkUserNoOrg = none →
      syncClerkUserToDatabase 1 constCands 0 clerkUserNoOrg emptyDb =
        some (Except.error SyncError.missingTenantContext, emptyDb))
    ∧ (∀ oid, extractOrganizationIdFromClerk clerkUserNoOrg = some oid →
        emptyDb.organizations.find? (fun o => o.id == oid && o.isActive) = none →
        syncClerkUserToDatabase 1 constCands 0 clerkUserNoOrg emptyDb =
          some (Except.error SyncError.unknownOrInactiveOrganization, emptyDb))
    ∧ SyncError.missingTenantContext ≠ SyncError.unknownOrInactiveOrganization :=
  claim_C4_tenant_rejections 1 constCands 0 clerkUserNoOrg emptyDb
    (by decide) (by decide)

/-- Claim C10: the update path writes the extracted email unconditionally.
When the event resolves no email, the updated row's email is the empty
string, while the creation path (on a database where the subject is fresh)
rejects the very same event with missingEmail: the email guard exists only
on creation. -/
theorem claim_C10_update_blank_email
    (now : Nat) (cu : ClerkUser) (db : Db) (u : User)
    (hNoEmail : (extractClerkUserData cu).email = "")
    (hFound : db.users.find? (fun x => x.clerkId == cu.id) = some u) :
    (∃ db2, handleClerkUserUpdate now cu db =
      Except.ok (applyClerkUpdate now cu u, db2))
    ∧ (applyClerkUpdate now cu u).email = ""
    ∧ (∀ fuel cands now2 (db2 : Db),
        db2.users.find? (fun x => x.clerkId == cu.id) = none →
        syncClerkUserToDatabase fuel cands now2 cu db2 =
          some (Except.error SyncError.missingEmail, db2)) := by
  have hupd : handleClerkUserUpdate now cu db =
      Except.ok (applyClerkUpdate now cu u,
        { db with
          users := updateFirst (fun x => x.clerkId == cu.id)
            (applyClerkUpdate now cu) db.users }) := by
    unfold handleClerkUserUpdate
    rw [hFound]
  refine ⟨⟨_, hupd⟩, ?_, ?_⟩
  · simp [applyClerkUpdate, hNoEmail]
  · intro fuel cands now2 db2 hfresh
    unfold syncClerkUserToDatabase
    rw [hfresh]
    dsimp only
    rw [if_pos hNoEmail]

/-- Witness for C10: an update event for ext_9 with no email addresses,
against the database holding the provisioned row storedUser9 whose email is
old@x.com. -/
theorem claim_C10_witness :
    (∃ db2, handleClerkUserUpdate 0 clerkUserNoEmail c10Db =
      Except.ok (applyClerkUpdate 0 clerkUserNoEmail storedUser9, db2))
    ∧ (applyClerkUpdate 0 clerkUserNoEmail storedUser9).email = ""
    ∧ (∀ fuel cands now2 (db2 : Db),
        db2.users.find? (fun x => x.clerkId == clerkUserNoEmail.id) = none →
        syncClerkUserToDatabase fuel cands now2 clerkUserNoEmail db2 =
          some (Except.error SyncError.missingEmail, db2)) :=
  claim_C10_update_blank_email 0 clerkUserNoEmail c10Db storedUser9
    (by decide) (by decide)

/-- A successful sync of a fresh subject produces a row whose clerkId is
the subject identifier, prepended to the user table, and the fresh table
held no row for that subject. -/
theorem sync_fresh_ok_shape
    (fuel : Nat) (cands : Nat → String) (now : Nat) (cu : ClerkUser)
    (db db2 : Db) (u : User)
    (hFresh : db.users.find? (fun x => x.clerkId == cu.id) = none)
    (hFirst : syncClerkUserToDatabase fuel cands now cu db = some (Except.ok u, db2)) :
    u.clerkId = cu.id ∧ db2.users = u :: db.users ∧
      db.users.countP (fun x => x.clerkId == cu.id) = 0 := by
  have hzero : db.users.countP (fun x => x.clerkId == cu.id) = 0 := by
    rw [List.countP_eq_zero]
    intro a ha
    exact List.find?_eq_none.mp hFresh a ha
  unfold syncClerkUserToDatabase at hFirst
  rw [hFresh] at hFirst
  dsimp only at hFirst
  split at hFirst
  · simp at hFirst
  · split at hFirst
    · simp at hFirst
    · split at hFirst
      · simp at hFirst
      · split at hFirst
        · simp at hFirst
        · split at hFirst
          · unfold createUserStep at hFirst
            split at hFirst
            · simp at hFirst
            · rw [Option.some.injEq, Prod.mk.injEq, Except.ok.injEq] at hFirst
              obtain ⟨hu, hdb⟩ := hFirst
              subst hu
              subst hdb
              exact ⟨rfl, rfl, hzero⟩
          · split at hFirst
            · simp at hFirst
            · unfold createUserStep at hFirst
              split at hFirst
              · simp at hFirst
              · rw [Option.some.injEq, Prod.mk.injEq, Except.ok.injEq] at hFirst
                obtain ⟨hu, hdb⟩ := hFirst
                subst hu
                subst hdb
                exact ⟨rfl, rfl, hzero⟩

/-- Claim C3: provisioning is idempotent for a fresh subject. If the first
delivery succeeds and returns (u, db2), a second delivery of the same
subject (with any retry budget, oracle and clock) returns exactly the first
record and leaves the state unchanged, and db2 holds exactly one row for
the subject. -/
theorem claim_C3_idempotent
    (fuel fuel2 : Nat) (cands cands2 : Nat → String) (now now2 : Nat)
    (cu : ClerkUser) (db db2 : Db) (u : User)
    (hFresh : db.users.find? (fun x => x.clerkId == cu.id) = none)
    (hFirst : syncClerkUserToDatabase fuel cands now cu db = some (Except.ok u, db2)) :
    syncClerkUserToDatabase fuel2 cands2 now2 cu db2 = some (Except.ok u, db2)
    ∧ db2.users.countP (fun x => x.clerkId == cu.id) = 1 := by
  obtain ⟨hcid, husers, hzero⟩ :=
    sync_fresh_ok_shape fuel cands now cu db db2 u hFresh hFirst
  have hprop : (fun x : User => x.clerkId == cu.id) u = true := by
    simp [hcid]
  have hfind : db2.users.find? (fun x => x.clerkId == cu.id) = some u := by
    rw [husers]
    exact List.find?_cons_of_pos _ hprop
  constructor
  · unfold syncClerkUserToDatabase
    rw [hfind]
  · rw [husers]
    simp [List.countP_cons, hcid, hzero]

/-- Witness for C3: the first sync of ext_42 into the fresh database c3Db0
produces (c3User, c3Db1); the second delivery returns the same record with
the state unchanged, and one row exists for ext_42. -/
theorem claim_C3_witness :
    syncClerkUserToDatabase 1 constCands 0 clerkUserExt42 c3Db1 =
      some (Except.ok c3User, c3Db1)
    ∧ c3Db1.users.countP (fun x => x.clerkId == clerkUserExt42.id) = 1 :=
  claim_C3_idempotent 1 1 constCands constCands 0 0 clerkUserExt42 c3Db0 c3Db1
    c3User (by decide) (by decide)

/-- updateFirst preserves the length of the list. -/
theorem updateFirst_length {α : Type} (p : α → Bool) (f : α → α) (l : List α) :
    (updateFirst p f l).length = l.length := by
  induction l with
  | nil => rfl
  | cons x xs ih =>
    unfold updateFirst
    split
    · simp
    · simp [ih]

/-- Every position of updateFirst holds the old element or its image. -/
theorem updateFirst_getD {α : Type} (p : α → Bool) (f : α → α) (l : List α)
    (i : Nat) (d : α) :
    (updateFirst p f l).getD i d = l.getD i d ∨
      (updateFirst p f l).getD i d = f (l.getD i d) := by
  induction l generalizing i with
  | nil => left; rfl
  | cons x xs ih =>
    unfold updateFirst
    split
    · cases i with
      | zero => right; rfl
      | succ j => left; rfl
    · cases i with
      | zero => left; rfl
      | succ j => simpa using ih j

/-- A position whose element does not satisfy p is untouched. -/
theorem updateFirst_getD_untouched {α : Type} (p : α → Bool) (f : α → α)
    (l : List α) (i : Nat) (d : α) (h : p (l.getD i d) = false) :
    (updateFirst p f l).getD i d = l.getD i d := by
  induction l generalizing i with
  | nil => rfl
  | cons x xs ih =>
    unfold updateFirst
    split
    · cases i with
      | zero => simp_all
      | succ j => rfl
    · cases i with
      | zero => rfl
      | succ j => simpa using ih j (by simpa using h)

/-- The row find? returns sits at a position updateFirst maps through f. -/
theorem updateFirst_found {α : Type} (p : α → Bool) (f : α → α) (l : List α)
    (u : α) (d : α) (h : l.find? p = some u) :
    ∃ i, i < l.length ∧ l.getD i d = u ∧ (updateFirst p f l).getD i d = f u := by
  induction l with
  | nil => simp at h
  | cons x xs ih =>
    by_cases hx : p x = true
    · rw [List.find?_cons_of_pos _ hx] at h
      have hux : u = x := (Option.some.inj h).symm
      subst hux
      refine ⟨0, by simp, rfl, ?_⟩
      unfold updateFirst
      rw [if_pos hx]
      rfl
    · rw [List.find?_cons_of_neg _ hx] at h
      obtain ⟨i, hi, hg, hu⟩ := ih h
      refine ⟨i + 1, by simpa using hi, by simpa using hg, ?_⟩
      unfold updateFirst
      rw [if_neg hx]
      simpa using hu

/-- Claim C8: the user.updated path with its existence check is a no-op for
an unknown subject (it never creates a row), and for a known subject it
touches only the user table, preserves its length, leaves every row's
organization, role, identity, employee code, status, dates and
email-verified flag unchanged, leaves rows of other subjects entirely
unchanged, and maps the found row through the update that writes only the
mutable profile fields extracted from the event. -/
theorem claim_C8_update_frame (now : Nat) (cu : ClerkUser) (db : Db) :
    (getUserByClerkId db cu.id = none → handleUserUpdatedEvent now cu db = db)
    ∧ (∀ u, getUserByClerkId db cu.id = some u →
        (handleUserUpdatedEvent now cu db).organizations = db.organizations
        ∧ (handleUserUpdatedEvent now cu db).roles = db.roles
        ∧ (handleUserUpdatedEvent now cu db).users.length = db.users.length
        ∧ (∀ i d,
            ((handleUserUpdatedEvent now cu db).users.getD i d).organizationId =
              (db.users.getD i d).organizationId
            ∧ ((handleUserUpdatedEvent now cu db).users.getD i d).roleId =
              (db.users.getD i d).roleId
            ∧ ((handleUserUpdatedEvent now cu db).users.getD i d).id =
              (db.users.getD i d).id
            ∧ ((handleUserUpdatedEvent now cu db).users.getD i d).clerkId =
              (db.users.getD i d).clerkId
            ∧ ((handleUserUpdatedEvent now cu db).users.getD i d).employeeCode =
              (db.users.getD i d).employeeCode
            ∧ ((handleUserUpdatedEvent now cu db).users.getD i d).status =
              (db.users.getD i d).status
            ∧ ((handleUserUpdatedEvent now cu db).users.getD i d).dateOfJoining =
              (db.users.getD i d).dateOfJoining
            ∧ ((handleUserUpdatedEvent now cu db).users.getD i d).dateOfLeaving =
              (db.users.getD i d).dateOfLeaving
            ∧ ((handleUserUpdatedEvent now cu db).users.getD i d).isEmailVerified =
              (db.users.getD i d).isEmailVerified
            ∧ (((db.users.getD i d).clerkId == cu.id) = false →
                (handleUserUpdatedEvent now cu db).users.getD i d =
                  db.users.getD i d))
        ∧ (∃ i, i < db.users.length
            ∧ db.users.getD i defaultUser = u
            ∧ (handleUserUpdatedEvent now cu db).users.getD i defaultUser =
              applyClerkUpdate now cu u)
        ∧ (applyClerkUpdate now cu u).email = (extractClerkUserData cu).email
        ∧ (applyClerkUpdate now cu u).firstName = (extractClerkUserData cu).firstName
        ∧ (applyClerkUpdate now cu u).lastName = (extractClerkUserData cu).lastName
        ∧ (applyClerkUpdate now cu u).phone = some (extractClerkUserData cu).phone
        ∧ (applyClerkUpdate now cu u).isPhoneVerified =
            ((extractClerkUserData cu).phone != "")) := by
  constructor
  · intro h
    unfold handleUserUpdatedEvent
    rw [h]
  · intro u hu
    have hres : handleUserUpdatedEvent now cu db =
        { db with
          users := updateFirst (fun x => x.clerkId == cu.id)
            (applyClerkUpdate now cu) db.users } := by
      unfold handleUserUpdatedEvent handleClerkUserUpdate
      rw [hu]
      unfold getUserByClerkId at hu
      rw [hu]
    rw [hres]
    refine ⟨rfl, rfl, updateFirst_length _ _ _, ?_, ?_, rfl, rfl, rfl, rfl, rfl⟩
    · intro i d
      rcases updateFirst_getD (fun x => x.clerkId == cu.id)
          (applyClerkUpdate now cu) db.users i d with heq | heq
      · rw [heq]
        refine ⟨rfl, rfl, rfl, rfl, rfl, rfl, rfl, rfl, rfl, fun _ => rfl⟩
      · rw [heq]
        refine ⟨rfl, rfl, rfl, rfl, rfl, rfl, rfl, rfl, rfl, ?_⟩
        intro hne
        have huntouched := updateFirst_getD_untouched (fun x => x.clerkId == cu.id)
          (applyClerkUpdate now cu) db.users i d hne
        exact heq.symm.trans huntouched
    · unfold getUserByClerkId at hu
      obtain ⟨i, hi, hg, hf⟩ :=
        updateFirst_found (fun x => x.clerkId == cu.id)
          (applyClerkUpdate now cu) db.users u defaultUser hu
      exact ⟨i, hi, hg, hf⟩

/-- Claim C1: validateTenantAccess admits a request exactly when a bearer
token is present (non-empty after stripping), verification of it succeeds,
the decoded claims carry a non-empty organization identifier, and the
organization lookup finds an active row; what it then attaches is the
decoded identity. A missing token and a failed verification are 401, a
missing organization identifier and a missing-or-inactive organization are
403. -/
theorem claim_C1_gate_characterization
    (verify : String → Except TokenError JWTPayload)
    (authHeader : Option String) (db : Db) :
    ((∃ ctx, validateTenantAccess verify authHeader db = MwOutcome.admitted ctx) ↔
      (extractBearerToken authHeader ≠ "" ∧
        ∃ p, verify (extractBearerToken authHeader) = Except.ok p ∧
          p.organizationId ≠ "" ∧
          ∃ org, db.organizations.find? (fun o => o.id == p.organizationId) = some org ∧
            org.isActive = true))
    ∧ (extractBearerToken authHeader = "" →
        validateTenantAccess verify authHeader db =
          MwOutcome.reject401 "Authentication token required")
    ∧ (∀ e, extractBearerToken authHeader ≠ "" →
        verify (extractBearerToken authHeader) = Except.error e →
        validateTenantAccess verify authHeader db =
          MwOutcome.reject401 "Invalid or expired token")
    ∧ (∀ p, extractBearerToken authHeader ≠ "" →
        verify (extractBearerToken authHeader) = Except.ok p →
        p.organizationId = "" →
        validateTenantAccess verify authHeader db =
          MwOutcome.reject403 "Invalid token: missing organization context")
    ∧ (∀ p, extractBearerToken authHeader ≠ "" →
        verify (extractBearerToken authHeader) = Except.ok p →
        p.organizationId ≠ "" →
        (∀ org, db.organizations.find? (fun o => o.id == p.organizationId) = some org →
          org.isActive = false) →
        validateTenantAccess verify authHeader db =
          MwOutcome.reject403 "Organization is inactive or not found")
    ∧ (∀ ctx, validateTenantAccess verify authHeader db = MwOutcome.admitted ctx →
        ∃ p, verify (extractBearerToken authHeader) = Except.ok p ∧
          ctx = authUserOf p) := by
  by_cases hTok : extractBearerToken authHeader = ""
  · simp [validateTenantAccess, hTok]
  · cases hv : verify (extractBearerToken authHeader) with
    | error e =>
      simp [validateTenantAccess, hTok, hv]
    | ok p =>
      by_cases hOrg : p.organizationId = ""
      · simp [validateTenantAccess, hTok, hv, hOrg]
      · cases hFind : db.organizations.find? (fun o => o.id == p.organizationId) with
        | none =>
          simp [validateTenantAccess, hTok, hv, hOrg, hFind]
        | some org =>
          by_cases hAct : org.isActive = true
          · simp [validateTenantAccess, hTok, hv, hOrg, hFind, hAct]
          · simp [validateTenantAccess, hTok, hv, hOrg, hFind, hAct]

end HRMS
